import Mathlib

/-!
Shallow embedding of the sender side of the OpenPGM transport
(`src/openpgm/pgm/source.c`) and proofs about the spec's claims.

Machine integers are modelled as `Nat` with explicit reductions modulo
`2^8`, `2^32` or `2^64` where the C arithmetic wraps.  Fallible C paths
return `Option`/`Int` error codes.  Wire constants whose definitions live
in headers outside `src/` (`pgm/packet.h`) are taken from spec section 4.7.
-/

/-- Error code EINVAL (22); the source returns `-EINVAL` on invalid input. -/
def EINVAL : Int := 22

/-- Error code EMSGSIZE (90); the source returns `-EMSGSIZE` on oversize payloads. -/
def EMSGSIZE : Int := 90

/-- Option bit OPT_PRESENT, per spec section 4.7 (pgm/packet.h is not under src/). -/
def PGM_OPT_PRESENT : Nat := 0x01

/-- Option bit OPT_NETWORK, per spec section 4.7. -/
def PGM_OPT_NETWORK : Nat := 0x02

/-- Option bit OPT_PARITY, per spec section 4.7. -/
def PGM_OPT_PARITY : Nat := 0x80

/-- Option type OPT_LENGTH, per spec section 4.7. -/
def PGM_OPT_LENGTH : Nat := 0x00

/-- Option type OPT_NAK_LIST, per spec section 4.7. -/
def PGM_OPT_NAK_LIST : Nat := 0x02

/-- Option type flag OPT_END, per spec section 4.7. -/
def PGM_OPT_END : Nat := 0x80

/-- Modelled from the spec: the option-type mask stripping the OPT_END bit
(`PGM_OPT_MASK` lives in pgm/packet.h which is not under src/; section 4.7
gives OPT_END = 0x80, so the mask keeps the low seven bits). -/
def PGM_OPT_MASK : Nat := 0x7f

/-- Packet type ODATA (0x04), per spec section 4.7. -/
def PGM_ODATA : Nat := 0x04

/-- Packet type RDATA (0x05), per spec section 4.7. -/
def PGM_RDATA : Nat := 0x05

/-- Packet type NCF (0x0A), per spec section 4.7. -/
def PGM_NCF : Nat := 0x0a

/-- UINT32_MAX as used by `pgm_transport_set_txw_sqns` (limits.h). -/
def UINT32_MAX : Nat := 4294967295

/-! ## Configuration setters (source.c lines 123-193) -/

/-- Write the elements of `src` into consecutive slots of `arr` starting at
index `pos`; embeds the `memcpy` into the freshly malloc'ed interval array
(source.c line 141).  `none` entries model uninitialized malloc'ed slots. -/
def memcpyAt : List (Option Nat) → Nat → List Nat → List (Option Nat)
  | arr, _, [] => arr
  | arr, pos, x :: xs => memcpyAt (arr.set pos (some x)) (pos + 1) xs

/-- Array built by `pgm_transport_set_heartbeat_spm` (source.c lines 140-142):
`g_malloc` of `len+2` uninitialized slots, `memcpy` of the caller's intervals
into slots `1..len`, then the single statement
`spm_heartbeat_interval[0] = spm_heartbeat_interval[len] = 0`. -/
def pgm_transport_set_heartbeat_spm_array (src : List Nat) : List (Option Nat) :=
  let len := src.length
  let arr : List (Option Nat) := List.replicate (len + 2) none
  let arr := memcpyAt arr 1 src
  let arr := arr.set len (some 0)
  arr.set 0 (some 0)

/-- Validation and store of `pgm_transport_set_heartbeat_spm` (source.c lines
123-146): fails with `-EINVAL` when the transport is bound, `len` is not
positive, or any supplied interval is zero; otherwise stores the array. -/
def pgm_transport_set_heartbeat_spm (is_bound : Bool) (src : List Nat) :
    Option (List (Option Nat)) :=
  if is_bound then none
  else if src.length = 0 then none
  else if src.any (fun x => x = 0) then none
  else some (pgm_transport_set_heartbeat_spm_array src)

/-- Transport configuration state touched by `pgm_transport_set_txw_sqns`. -/
structure TransportCfg where
  is_bound : Bool
  txw_sqns : Nat
deriving DecidableEq

/-- Setter `pgm_transport_set_txw_sqns` (source.c lines 177-193): guards
`!is_bound`, `sqns < (UINT32_MAX/2)-1` and `sqns > 0`, each failing with
`-EINVAL`; on success stores the value and returns 0. -/
def pgm_transport_set_txw_sqns (t : TransportCfg) (sqns : Nat) : TransportCfg × Int :=
  if t.is_bound then (t, -EINVAL)
  else if ¬ (sqns < UINT32_MAX / 2 - 1) then (t, -EINVAL)
  else if ¬ (sqns > 0) then (t, -EINVAL)
  else ({ t with txw_sqns := sqns }, 0)

/-! ## Heartbeat reset (source.c lines 992-1018 and 2148-2153) -/

/-- Modelled from the spec: `time.after(a,b)` over wrap-around 64-bit
arithmetic (pgm/time.h is not under src/): `a` is strictly later than `b`
on the short arc of the 64-bit circle. -/
def pgm_time_after (a b : Nat) : Bool := a ≠ b && (a + 2 ^ 64 - b) % 2 ^ 64 < 2 ^ 63

/-- Heartbeat-related sender state: the stored schedule (read with
`List.getD`, default 0, for C array indexing), the state index, the two
absolute deadlines, and a counter of wakeups sent on the timer notify
channel (`pgm_notify_send (&transport->timer_notify)`). -/
structure HeartbeatState where
  spm_heartbeat_state : Nat
  spm_heartbeat_interval : List Nat
  next_heartbeat_spm : Nat
  next_poll : Nat
  timer_notify : Nat
deriving DecidableEq

/-- Function `pgm_reset_heartbeat_spm` (source.c lines 992-1018): set
`spm_heartbeat_state = 1`, set `next_heartbeat_spm = now +
spm_heartbeat_interval[spm_heartbeat_state++]`, then if `next_poll` is after
the new deadline, pull `next_poll` forward and wake the timer thread. -/
def pgm_reset_heartbeat_spm (now : Nat) (s : HeartbeatState) : HeartbeatState :=
  let state1 := 1
  let deadline := now + s.spm_heartbeat_interval.getD state1 0
  let s := { s with spm_heartbeat_state := state1 + 1, next_heartbeat_spm := deadline }
  if pgm_time_after s.next_poll s.next_heartbeat_spm then
    { s with next_poll := s.next_heartbeat_spm, timer_notify := s.timer_notify + 1 }
  else s

/-- Heartbeat reset inlined at the tail of `send_rdata` (source.c lines
2148-2153): identical schedule reset, but no `next_poll` update and no
notification ("we are already in the timer thread, no need to prod timers"). -/
def send_rdata_heartbeat_reset (now : Nat) (s : HeartbeatState) : HeartbeatState :=
  let state1 := 1
  { s with spm_heartbeat_state := state1 + 1,
           next_heartbeat_spm := now + s.spm_heartbeat_interval.getD state1 0 }

/-! ## Repair consumer divisor (on_nak_notify, source.c lines 275-454) -/

/-- Retransmit-queue entry as peeked by `pgm_txw_retransmit_try_peek`. -/
structure RetransmitEntry where
  sequence : Nat
  is_parity : Bool
  rs_h : Nat
deriving DecidableEq

/-- FEC parameters of the transport used by `on_nak_notify`. -/
structure FecTransport where
  rs_n : Nat
  rs_k : Nat
  tg_sqn_shift : Nat
deriving DecidableEq

/-- Statement `rs_h %= transport->rs_n - transport->rs_k` (source.c line 309):
the subtraction is unsigned 32-bit and wraps; when the resulting divisor is
zero the modulo is undefined behaviour, modelled as `none`. -/
def on_nak_notify_rs_h (t : FecTransport) (rs_h : Nat) : Option Nat :=
  let divisor := (t.rs_n + 2 ^ 32 - t.rs_k) % 2 ^ 32
  if divisor = 0 then none else some (rs_h % divisor)

/-- Repair request produced for `send_rdata` by one `on_nak_notify` pass. -/
structure RdataRequest where
  sequence : Nat
  is_parity : Bool
  rs_h : Nat
deriving DecidableEq

/-- Body of `on_nak_notify` once an entry is peeked (source.c lines 304-446):
`rs_h %= rs_n - rs_k` is computed first, before the `if (is_parity)` branch;
a parity entry then rebuilds the packet for group `sequence & tg_sqn_mask`
with index `rs_h`, while a selective entry forwards the buffered packet
unchanged.  Undefined behaviour from the zero divisor is `none`. -/
def on_nak_notify_step (t : FecTransport) (e : RetransmitEntry) : Option RdataRequest :=
  match on_nak_notify_rs_h t e.rs_h with
  | none => none
  | some rs_h =>
    if e.is_parity then
      let tg_sqn_mask := (0xffffffff <<< t.tg_sqn_shift) % 2 ^ 32
      some ⟨(e.sequence &&& tg_sqn_mask) ||| rs_h, true, rs_h⟩
    else
      some ⟨e.sequence, false, rs_h⟩

/-! ## Theorems for claims C3, C5, C6, C10 -/

/-- C3: the claim says the stored heartbeat schedule keeps all `len`
supplied intervals at indices `1..len` with a 0 terminator right after
them.  The code instead executes `spm_heartbeat_interval[len] = 0`,
zeroing the slot that just received the *last* supplied interval (the
allocation of `len+2` slots shows the terminator was meant for index
`len+1`, which stays uninitialized).  Evaluated at the one-interval
schedule `[100]`: slot 1 ends up 0, the interval is lost. -/
theorem heartbeat_schedule_terminator_clobbers :
    pgm_transport_set_heartbeat_spm false [100]
      = some [some 0, some 0, none]
    ∧ (pgm_transport_set_heartbeat_spm_array [100]).getD 1 none ≠ some 100 := by
  constructor
  · rfl
  · decide

/-- C5 counterexample: the claim says every successful ODATA or RDATA
emission wakes the timer thread whenever the new heartbeat deadline
precedes `next_poll`.  On the RDATA path (`send_rdata`) the schedule is
reset but no notification is ever sent: at `now = 0`, schedule `[0,100,0]`
and `next_poll = 1000000000`, the new deadline 100 precedes `next_poll`
yet `timer_notify` stays 0. -/
theorem rdata_heartbeat_no_wake_counterexample :
    (send_rdata_heartbeat_reset 0 ⟨0, [0, 100, 0], 0, 1000000000, 0⟩).next_heartbeat_spm = 100
    ∧ pgm_time_after
        (send_rdata_heartbeat_reset 0 ⟨0, [0, 100, 0], 0, 1000000000, 0⟩).next_poll
        (send_rdata_heartbeat_reset 0 ⟨0, [0, 100, 0], 0, 1000000000, 0⟩).next_heartbeat_spm = true
    ∧ (send_rdata_heartbeat_reset 0 ⟨0, [0, 100, 0], 0, 1000000000, 0⟩).timer_notify = 0 := by
  refine ⟨rfl, ?_, rfl⟩
  decide

/-- C5 as amended: both resets set the schedule to state 1, set
`next_heartbeat_spm = now + schedule[1]` and advance the state index to 2;
but only the ODATA-path `pgm_reset_heartbeat_spm` wakes the timer thread
(exactly when the new deadline precedes `next_poll`, also pulling
`next_poll` forward), while the RDATA-path reset inside `send_rdata` never
notifies and never touches `next_poll`. -/
theorem heartbeat_reset_behaviour (now : Nat) (s : HeartbeatState) :
    ((pgm_reset_heartbeat_spm now s).spm_heartbeat_state = 2
      ∧ (pgm_reset_heartbeat_spm now s).next_heartbeat_spm
          = now + s.spm_heartbeat_interval.getD 1 0
      ∧ (pgm_reset_heartbeat_spm now s).timer_notify
          = (if pgm_time_after s.next_poll (now + s.spm_heartbeat_interval.getD 1 0)
             then s.timer_notify + 1 else s.timer_notify)
      ∧ (pgm_reset_heartbeat_spm now s).next_poll
          = (if pgm_time_after s.next_poll (now + s.spm_heartbeat_interval.getD 1 0)
             then now + s.spm_heartbeat_interval.getD 1 0 else s.next_poll))
    ∧ ((send_rdata_heartbeat_reset now s).spm_heartbeat_state = 2
      ∧ (send_rdata_heartbeat_reset now s).next_heartbeat_spm
          = now + s.spm_heartbeat_interval.getD 1 0
      ∧ (send_rdata_heartbeat_reset now s).timer_notify = s.timer_notify
      ∧ (send_rdata_heartbeat_reset now s).next_poll = s.next_poll) := by
  simp only [pgm_reset_heartbeat_spm, send_rdata_heartbeat_reset]
  refine ⟨⟨?_, ?_, ?_, ?_⟩, ?_, ?_, ?_, ?_⟩ <;> first
  | trivial
  | (split <;> rfl)

/-- C6 counterexample: the claim says `pgm_transport_set_txw_sqns` succeeds
on an unbound transport for every `0 < sqns < 2^31 - 1`; but at
`sqns = 2147483646` (which satisfies that range) the guard
`sqns < (UINT32_MAX/2)-1` fails and the call returns `-EINVAL` without
storing. -/
theorem txw_sqns_boundary_counterexample :
    0 < 2147483646
    ∧ 2147483646 < 2 ^ 31 - 1
    ∧ (pgm_transport_set_txw_sqns ⟨false, 0⟩ 2147483646).2 = -EINVAL
    ∧ (pgm_transport_set_txw_sqns ⟨false, 0⟩ 2147483646).1 = ⟨false, 0⟩ := by
  refine ⟨by norm_num, by norm_num, ?_, ?_⟩ <;> decide

/-- C6 as amended: on a 32-bit argument, `pgm_transport_set_txw_sqns`
returns 0 and stores the value exactly when the transport is unbound and
`0 < sqns < 2^31 - 2` (the code's bound is `(UINT32_MAX/2)-1 =
2147483646`, one less than the claim's `2^31 - 1`); in every other case it
returns `-EINVAL` and leaves the transport unchanged. -/
theorem set_txw_sqns_characterization (t : TransportCfg) (sqns : Nat)
    (_h : sqns < 2 ^ 32) :
    ((pgm_transport_set_txw_sqns t sqns).2 = 0
      ↔ (t.is_bound = false ∧ 0 < sqns ∧ sqns < 2 ^ 31 - 2))
    ∧ ((pgm_transport_set_txw_sqns t sqns).2 = 0
        → (pgm_transport_set_txw_sqns t sqns).1 = { t with txw_sqns := sqns })
    ∧ ((pgm_transport_set_txw_sqns t sqns).2 ≠ 0
        → (pgm_transport_set_txw_sqns t sqns).2 = -EINVAL
          ∧ (pgm_transport_set_txw_sqns t sqns).1 = t) := by
  rcases t with ⟨b, w⟩
  unfold pgm_transport_set_txw_sqns UINT32_MAX EINVAL
  cases b
  · by_cases h1 : sqns < 2147483646
    · by_cases h2 : 0 < sqns
      · simp [h1, h2]
      · simp [h1, h2]
    · simp [h1]
  · simp

/-- Witness for `set_txw_sqns_characterization` at `sqns = 32`. -/
theorem set_txw_sqns_characterization_witness :
    (32 : Nat) < 2 ^ 32
    ∧ ((pgm_transport_set_txw_sqns ⟨false, 0⟩ 32).2 = 0
        ↔ ((false : Bool) = false ∧ 0 < 32 ∧ (32 : Nat) < 2 ^ 31 - 2)) := by
  refine ⟨by norm_num, (set_txw_sqns_characterization ⟨false, 0⟩ 32 (by norm_num)).1⟩

/-- C10 counterexample: the claim says the dequeue step of `on_nak_notify`
is well-defined only under `rs_n > rs_k`.  With `rs_n = 1 < 2 = rs_k` the
unsigned subtraction wraps to the nonzero divisor `2^32 - 1`, so the
modulo is perfectly defined (here on a selective entry) although
`rs_n > rs_k` fails. -/
theorem rs_divisor_wrap_counterexample :
    (on_nak_notify_step ⟨1, 2, 3⟩ ⟨7, false, 5⟩).isSome = true
    ∧ ¬ (1 > 2) := by
  exact ⟨by decide, by omega⟩

/-- C10 as amended: `rs_h %= rs_n - rs_k` is evaluated before the
`is_parity` branch, so for every dequeued entry — selective ones that never
use `rs_h` included — the step is undefined exactly when the unsigned
divisor is zero, i.e. when `rs_n = rs_k` (as 32-bit values); whenever
`rs_n ≠ rs_k` the step is defined. -/
theorem on_nak_notify_divisor_characterization (t : FecTransport) (e : RetransmitEntry)
    (hn : t.rs_n < 2 ^ 32) (hk : t.rs_k < 2 ^ 32) :
    (on_nak_notify_step t e = none ↔ t.rs_n = t.rs_k) := by
  unfold on_nak_notify_step on_nak_notify_rs_h
  by_cases h : (t.rs_n + 2 ^ 32 - t.rs_k) % 2 ^ 32 = 0
  · rw [if_pos h]
    simp only [true_iff]
    omega
  · rw [if_neg h]
    by_cases hp : e.is_parity <;> simp only [hp, if_pos, if_neg, Bool.false_eq_true,
      reduceCtorEq, false_iff, ite_true, ite_false] <;> omega

/-- Witness for `on_nak_notify_divisor_characterization` at
`rs_n = 255, rs_k = 223` with a selective entry. -/
theorem on_nak_notify_divisor_characterization_witness :
    (255 : Nat) < 2 ^ 32 ∧ (223 : Nat) < 2 ^ 32
    ∧ (on_nak_notify_step ⟨255, 223, 0⟩ ⟨9, false, 40⟩ = none ↔ (255 : Nat) = 223) := by
  exact ⟨by norm_num, by norm_num,
    on_nak_notify_divisor_characterization ⟨255, 223, 0⟩ ⟨9, false, 40⟩
      (by norm_num) (by norm_num)⟩

/-! ## NAK intake (on_nak, source.c lines 513-659) -/

/-- PGM option header as read by the option walk in `on_nak`
(`struct pgm_opt_header`): a type byte and a length byte. -/
structure OptHeader where
  opt_type : Nat
  opt_length : Nat
deriving DecidableEq

/-- Cumulative statistics fields of the transport touched by `on_nak`. -/
structure Counters where
  selective_naks_received : Nat
  parity_naks_received : Nat
  malformed_naks : Nat
  packets_discarded : Nat
deriving DecidableEq

/-- Transport state consumed by `on_nak`. -/
structure OnNakTransport where
  use_ondemand_parity : Bool
  stats : Counters
deriving DecidableEq

/-- Parsed NAK input to `on_nak`.  Collaborator results that are computed
outside src/ are carried as fields: `verify_retval` is the return of
`pgm_verify_nak` (0 on success), and the two match flags are the outcomes
of the `pgm_sockaddr_cmp` comparisons of NAK_SRC_NLA/NAK_GRP_NLA against
the transport's send address and multicast group.  `opt_length_hdr` is the
`pgm_opt_length` option at the start of the option region, and `opts` are
the option headers following it, in walk order. -/
structure NakPacket where
  pgm_options : Nat
  nak_sqn : Nat
  verify_retval : Int
  src_nla_match : Bool
  grp_nla_match : Bool
  opt_length_hdr : OptHeader
  opts : List OptHeader
deriving DecidableEq

/-- Option walk of `on_nak` (source.c lines 601-611): starting right after
the OPT_LENGTH option, return the `opt_length` byte of the first option
whose masked type is OPT_NAK_LIST, stopping at an option carrying the
OPT_END flag. -/
def findNakList : List OptHeader → Option Nat
  | [] => none
  | h :: rest =>
    if h.opt_type &&& PGM_OPT_MASK = PGM_OPT_NAK_LIST then some h.opt_length
    else if h.opt_type &&& PGM_OPT_END ≠ 0 then none
    else findNakList rest

/-- NAK-list length computation (source.c line 608):
`(opt_header->opt_length - sizeof(struct pgm_opt_header) - sizeof(guint8)) / sizeof(guint32)`.
The `guint8` length is promoted and the subtraction happens in `size_t`
(64-bit, wrapping), the quotient is then stored into a `guint` (32-bit). -/
def computeNakListLen (optLength : Nat) : Nat :=
  ((optLength + 2 ^ 64 - 4) % 2 ^ 64 / 4) % 2 ^ 32

/-- NCF packet as produced by `send_ncf` / `send_ncf_list`. -/
structure NcfPacket where
  pgm_type : Nat
  pgm_options : Nat
  is_list : Bool
deriving DecidableEq

/-- Header option byte written by `send_ncf` (source.c line 842):
`is_parity ? PGM_OPT_PARITY : 0`. -/
def send_ncf_options (is_parity : Bool) : Nat :=
  if is_parity then PGM_OPT_PARITY else 0

/-- Header option byte written by `send_ncf_list` (source.c line 915):
`is_parity ? (PGM_OPT_PRESENT | PGM_OPT_NETWORK | PGM_OPT_PARITY)
           : (PGM_OPT_PRESENT | PGM_OPT_NETWORK)`. -/
def send_ncf_list_options (is_parity : Bool) : Nat :=
  if is_parity then PGM_OPT_PRESENT ||| PGM_OPT_NETWORK ||| PGM_OPT_PARITY
  else PGM_OPT_PRESENT ||| PGM_OPT_NETWORK

/-- Result of one `on_nak` call: the updated statistics, the NCF that was
emitted (if any), the number of sequence numbers pushed onto the TXW
retransmit queue, and the C return value — `none` models the path that
executes `return retval` with `retval` never initialized (the `goto out`
at source.c line 531 jumps over the declaration's first assignment). -/
structure OnNakResult where
  stats : Counters
  ncf : Option NcfPacket
  retransmit_pushed : Nat
  retval : Option Int
deriving DecidableEq

/-- Add one to the malformed-NAKs and packets-discarded counters, the pair
bumped together on every malformed path of `on_nak`. -/
def bumpMalformed (s : Counters) : Counters :=
  { s with malformed_naks := s.malformed_naks + 1,
           packets_discarded := s.packets_discarded + 1 }

/-- Counter update at the head of `on_nak` (source.c lines 523-535). -/
def bumpNakStats (is_parity : Bool) (s : Counters) : Counters :=
  if is_parity then { s with parity_naks_received := s.parity_naks_received + 1 }
  else { s with selective_naks_received := s.selective_naks_received + 1 }

/-- Tail of `on_nak` once the packet has been validated (source.c lines
635-655): emit a list NCF when the option walk produced list entries,
otherwise a single-sequence NCF, then push the primary sequence plus the
list entries (`1 + nak_list_len` sequence numbers) onto the retransmit
queue; the notification channel is modelled as always succeeding, so the
retained `retval` stays 0. -/
def onNakFinish (stats : Counters) (is_parity : Bool) (nak_list_len : Nat) : OnNakResult :=
  { stats := stats,
    ncf := some (if nak_list_len ≠ 0 then
        { pgm_type := PGM_NCF, pgm_options := send_ncf_list_options is_parity, is_list := true }
      else
        { pgm_type := PGM_NCF, pgm_options := send_ncf_options is_parity, is_list := false }),
    retransmit_pushed := 1 + nak_list_len,
    retval := some 0 }

/-- NAK-list length extracted by `on_nak` for a given packet: only packets
with OPT_PRESENT are walked (source.c lines 578-612). -/
def nakListLenOf (nak : NakPacket) : Nat :=
  if nak.pgm_options &&& PGM_OPT_PRESENT ≠ 0 then
    match findNakList nak.opts with
    | some l => computeNakListLen l
    | none => 0
  else 0

/-- Function `on_nak` (source.c lines 513-659).  Control flow in source
order: classify parity by the OPT_PARITY bit and bump the received
counter; discard parity NAKs when on-demand parity is off (`goto out`
reading the uninitialized `retval`); then `pgm_verify_nak`, the source-NLA
and group-NLA comparisons, and — under OPT_PRESENT — the OPT_LENGTH
type/length checks, each malformed path bumping malformed+discarded and
returning `-EINVAL` (the verify failure returns the verify result);
finally the NCF emission and retransmit pushes. -/
def on_nak (t : OnNakTransport) (nak : NakPacket) : OnNakResult :=
  let is_parity : Bool := nak.pgm_options &&& PGM_OPT_PARITY ≠ 0
  let stats := bumpNakStats is_parity t.stats
  if is_parity && !t.use_ondemand_parity then
    { stats := bumpMalformed stats, ncf := none, retransmit_pushed := 0, retval := none }
  else if nak.verify_retval ≠ 0 then
    { stats := bumpMalformed stats, ncf := none, retransmit_pushed := 0,
      retval := some nak.verify_retval }
  else if !nak.src_nla_match then
    { stats := bumpMalformed stats, ncf := none, retransmit_pushed := 0, retval := some (-EINVAL) }
  else if !nak.grp_nla_match then
    { stats := bumpMalformed stats, ncf := none, retransmit_pushed := 0, retval := some (-EINVAL) }
  else if nak.pgm_options &&& PGM_OPT_PRESENT ≠ 0
      ∧ nak.opt_length_hdr.opt_type ≠ PGM_OPT_LENGTH then
    { stats := bumpMalformed stats, ncf := none, retransmit_pushed := 0, retval := some (-EINVAL) }
  else if nak.pgm_options &&& PGM_OPT_PRESENT ≠ 0
      ∧ nak.opt_length_hdr.opt_length ≠ 4 then
    { stats := bumpMalformed stats, ncf := none, retransmit_pushed := 0, retval := some (-EINVAL) }
  else
    onNakFinish stats is_parity (nakListLenOf nak)

/-- Shape lemma: an `on_nak` call either ends on a discard path with no
NCF, or it completes and equals `onNakFinish` of the bumped statistics,
the NAK's parity bit and the computed list length. -/
theorem on_nak_shape (t : OnNakTransport) (nak : NakPacket) :
    (on_nak t nak).ncf = none
    ∨ on_nak t nak
        = onNakFinish (bumpNakStats (nak.pgm_options &&& PGM_OPT_PARITY ≠ 0) t.stats)
            (nak.pgm_options &&& PGM_OPT_PARITY ≠ 0) (nakListLenOf nak) := by
  simp only [on_nak]
  split_ifs <;> simp

/-! ## Theorems for claims C4, C7, C8 -/

/-- C4: a parity NAK received while `use_ondemand_parity` is off is
discarded as malformed — parity-NAKs-received, malformed-NAKs and
packets-discarded each grow by exactly 1, no NCF is emitted and nothing is
pushed onto the retransmit queue — but the claim's "returns
InvalidArgument" does not hold: the `goto out` jumps over every assignment
to `retval`, so the function returns an uninitialized value (modelled as
`none`), contradicting its own doc comment "on error, -EINVAL is
returned".  Evaluated at a concrete parity NAK. -/
theorem parity_nak_discard_uninitialized_retval :
    on_nak ⟨false, ⟨0, 0, 0, 0⟩⟩ ⟨PGM_OPT_PARITY, 9, 0, true, true, ⟨0, 4⟩, []⟩
      = { stats := ⟨0, 1, 1, 1⟩, ncf := none, retransmit_pushed := 0, retval := none }
    ∧ (on_nak ⟨false, ⟨0, 0, 0, 0⟩⟩ ⟨PGM_OPT_PARITY, 9, 0, true, true, ⟨0, 4⟩, []⟩).retval
        ≠ some (-EINVAL) := by
  constructor <;> decide

/-- C7 counterexample: the claim bounds the sequence list built by
`on_nak` by 63 for every option encoding.  A NAK whose OPT_NAK_LIST option
carries `opt_length = 0` underflows the unsigned computation
`(opt_length - 3 - 1) / 4`, giving a list length of `2^32 - 1`, so the
code pushes `2^32` sequence numbers — far above 63 (the spec's formula is
only valid when `opt_length ≥ 4`). -/
theorem nak_list_underflow_counterexample :
    (on_nak ⟨false, ⟨0, 0, 0, 0⟩⟩
        ⟨PGM_OPT_PRESENT, 9, 0, true, true, ⟨0, 4⟩, [⟨PGM_OPT_NAK_LIST, 0⟩]⟩).retransmit_pushed
      = 4294967296
    ∧ ¬ (on_nak ⟨false, ⟨0, 0, 0, 0⟩⟩
        ⟨PGM_OPT_PRESENT, 9, 0, true, true, ⟨0, 4⟩, [⟨PGM_OPT_NAK_LIST, 0⟩]⟩).retransmit_pushed
      ≤ 63 := by
  constructor <;> decide

/-- Helper: any option length returned by the walk is the `opt_length`
field of one of the walked option headers. -/
theorem findNakList_mem {opts : List OptHeader} {l : Nat}
    (h : findNakList opts = some l) : ∃ o ∈ opts, o.opt_length = l := by
  induction opts with
  | nil => simp [findNakList] at h
  | cons o rest ih =>
    by_cases h1 : o.opt_type &&& PGM_OPT_MASK = PGM_OPT_NAK_LIST
    · rw [findNakList, if_pos h1] at h
      exact ⟨o, List.mem_cons_self o rest, by simpa using h⟩
    · by_cases h2 : o.opt_type &&& PGM_OPT_END ≠ 0
      · rw [findNakList, if_neg h1, if_pos h2] at h
        cases h
      · rw [findNakList, if_neg h1, if_neg h2] at h
        rcases ih h with ⟨o', ho', hl⟩
        exact ⟨o', List.mem_cons_of_mem o ho', hl⟩

/-- Helper: on byte-valued option lengths of at least 4, the unsigned
length formula reduces to `(l - 4) / 4 ≤ 62`. -/
theorem computeNakListLen_le {l : Nat} (hwf : l < 256) (hmin : 4 ≤ l) :
    computeNakListLen l ≤ 62 := by
  unfold computeNakListLen
  omega

/-- C7 as amended: the sequence list built by `on_nak` from the primary
sequence number plus the first OPT_NAK_LIST option holds at most 63
sequence numbers (at most 62 from the list) for every option encoding in
which the matched OPT_NAK_LIST option's `opt_length` byte is at least 4
(= header bytes + 1); below 4 the unsigned subtraction in
`(opt_length - header_bytes - 1) / 4` underflows and the bound fails. -/
theorem nak_list_bounded_when_wellformed (t : OnNakTransport) (nak : NakPacket)
    (hwf : ∀ o ∈ nak.opts, o.opt_length < 256)
    (hmin : ∀ l, findNakList nak.opts = some l → 4 ≤ l) :
    (on_nak t nak).retransmit_pushed ≤ 63 := by
  have hlen : nakListLenOf nak ≤ 62 := by
    unfold nakListLenOf
    split_ifs
    · cases hfind : findNakList nak.opts with
      | none => simp
      | some l =>
        rcases findNakList_mem hfind with ⟨o, ho, hl⟩
        exact computeNakListLen_le (hl ▸ hwf o ho) (hmin l hfind)
    · simp
  simp only [on_nak]
  split_ifs <;> simp [onNakFinish] <;> omega

/-- Witness for `nak_list_bounded_when_wellformed` on a NAK carrying a
two-entry list (`opt_length = 12`). -/
theorem nak_list_bounded_when_wellformed_witness :
    (on_nak ⟨false, ⟨0, 0, 0, 0⟩⟩
        ⟨PGM_OPT_PRESENT, 9, 0, true, true, ⟨0, 4⟩,
          [⟨PGM_OPT_NAK_LIST ||| PGM_OPT_END, 12⟩]⟩).retransmit_pushed ≤ 63 :=
  nak_list_bounded_when_wellformed ⟨false, ⟨0, 0, 0, 0⟩⟩
    ⟨PGM_OPT_PRESENT, 9, 0, true, true, ⟨0, 4⟩, [⟨PGM_OPT_NAK_LIST ||| PGM_OPT_END, 12⟩]⟩
    (by decide) (by decide)

/-- C8: every NCF emitted by `on_nak` carries OPT_PARITY exactly when the
triggering NAK carried OPT_PARITY; the single-sequence variant sets no
other option bit (its option byte is 0 or OPT_PARITY alone), and the list
variant sets exactly OPT_PRESENT and OPT_NETWORK in addition. -/
theorem ncf_options_match_nak (t : OnNakTransport) (nak : NakPacket) (p : NcfPacket)
    (h : (on_nak t nak).ncf = some p) :
    ((p.pgm_options &&& PGM_OPT_PARITY ≠ 0) ↔ (nak.pgm_options &&& PGM_OPT_PARITY ≠ 0))
    ∧ (p.is_list = false →
        p.pgm_options = if nak.pgm_options &&& PGM_OPT_PARITY ≠ 0 then PGM_OPT_PARITY else 0)
    ∧ (p.is_list = true →
        p.pgm_options = if nak.pgm_options &&& PGM_OPT_PARITY ≠ 0
          then PGM_OPT_PRESENT ||| PGM_OPT_NETWORK ||| PGM_OPT_PARITY
          else PGM_OPT_PRESENT ||| PGM_OPT_NETWORK) := by
  rcases on_nak_shape t nak with hs | hs
  · rw [hs] at h
    exact absurd h (by simp)
  · rw [hs] at h
    simp only [onNakFinish, Option.some.injEq] at h
    subst h
    have e1 : PGM_OPT_PARITY &&& PGM_OPT_PARITY = PGM_OPT_PARITY := by decide
    have e2 : (0 : Nat) &&& PGM_OPT_PARITY = 0 := by decide
    have e3 : (PGM_OPT_PRESENT ||| PGM_OPT_NETWORK ||| PGM_OPT_PARITY) &&& PGM_OPT_PARITY
        = PGM_OPT_PARITY := by decide
    have e4 : (PGM_OPT_PRESENT ||| PGM_OPT_NETWORK) &&& PGM_OPT_PARITY = 0 := by decide
    have e5 : PGM_OPT_PARITY ≠ 0 := by decide
    by_cases hp : nak.pgm_options &&& PGM_OPT_PARITY = 0 <;>
      by_cases hl : nakListLenOf nak = 0 <;>
        simp [send_ncf_options, send_ncf_list_options, hp, hl, e1, e2, e3, e4, e5]

/-- Witness for `ncf_options_match_nak` on a selective NAK that produces a
single-sequence NCF. -/
theorem ncf_options_match_nak_witness :
    (((send_ncf_options false : Nat) &&& PGM_OPT_PARITY ≠ 0)
        ↔ ((0 : Nat) &&& PGM_OPT_PARITY ≠ 0))
    ∧ ((false : Bool) = false →
        (send_ncf_options false : Nat)
          = if (0 : Nat) &&& PGM_OPT_PARITY ≠ 0 then PGM_OPT_PARITY else 0) := by
  have h := ncf_options_match_nak ⟨false, ⟨0, 0, 0, 0⟩⟩ ⟨0, 9, 0, true, true, ⟨0, 4⟩, []⟩
    ⟨PGM_NCF, send_ncf_options false, false⟩ (by decide)
  exact ⟨h.1, h.2.1⟩

/-! ## ODATA send paths (source.c lines 1024-2084) -/

/-- OPT_FRAGMENT payload stamped on each TPDU of a fragmented APDU
(`struct pgm_opt_fragment`): first sequence number, byte offset of this
fragment, and total APDU length. -/
structure OptFragment where
  opt_sqn : Nat
  opt_frag_off : Nat
  opt_frag_len : Nat
deriving DecidableEq

/-- ODATA packet header fields stamped by the send paths. -/
structure OdataPacket where
  pgm_type : Nat
  pgm_options : Nat
  pgm_tsdu_length : Nat
  data_sqn : Nat
  opt_fragment : Option OptFragment
deriving DecidableEq

/-- Fragmentation do-while loop of `pgm_transport_send` (source.c lines
1451-1543); `pgm_transport_sendv` with `is_one_apdu` runs the identical
loop body (lines 1706-1840).  Per iteration: `tsdu_length =
MIN(max_tsdu_fragment, apdu_length - data_bytes_offset)`, a packet is
stamped with OPT_PRESENT and an OPT_FRAGMENT of
`(first_sqn, data_bytes_offset, apdu_length)`, then the offset advances by
`tsdu_length`, looping `while (data_bytes_offset < apdu_length)`.  The
final argument is fuel bounding the iteration count (the loop advances by
at least one byte per iteration when `max_tsdu_fragment > 0`). -/
def pgm_transport_send_loop (max_tsdu_fragment apdu_length first_sqn : Nat) :
    Nat → Nat → Nat → List OdataPacket
  | _, _, 0 => []
  | data_bytes_offset, sqn, fuel + 1 =>
    let tsdu_length := min max_tsdu_fragment (apdu_length - data_bytes_offset)
    let pkt : OdataPacket :=
      { pgm_type := PGM_ODATA, pgm_options := PGM_OPT_PRESENT,
        pgm_tsdu_length := tsdu_length, data_sqn := sqn,
        opt_fragment := some ⟨first_sqn, data_bytes_offset, apdu_length⟩ }
    if data_bytes_offset + tsdu_length < apdu_length then
      pkt :: pgm_transport_send_loop max_tsdu_fragment apdu_length first_sqn
        (data_bytes_offset + tsdu_length) (sqn + 1) fuel
    else [pkt]

/-- TPDUs emitted by one fragmenting `pgm_transport_send` call: the state
field `data_bytes_offset` is reset to 0 before the loop (source.c line
1446), and `first_sqn` is latched from `pgm_txw_next_lead` (line 1449). -/
def pgm_transport_send_fragments (max_tsdu_fragment apdu_length first_sqn : Nat) :
    List OdataPacket :=
  pgm_transport_send_loop max_tsdu_fragment apdu_length first_sqn 0 first_sqn (apdu_length + 1)

/-- Per-skb loop of `pgm_transport_send_skbv` with `is_one_apdu` (source.c
lines 1949-2052): each vector element becomes one TPDU of its own length,
stamped with OPT_PRESENT and OPT_FRAGMENT of
`(first_sqn, data_bytes_offset, apdu_length)`, and `data_bytes_offset`
advances by the element length (line 2039). -/
def pgm_transport_send_skbv_loop (first_sqn apdu_length : Nat) :
    List Nat → Nat → Nat → List OdataPacket
  | [], _, _ => []
  | len :: rest, data_bytes_offset, sqn =>
    { pgm_type := PGM_ODATA, pgm_options := PGM_OPT_PRESENT, pgm_tsdu_length := len,
      data_sqn := sqn,
      opt_fragment := some ⟨first_sqn, data_bytes_offset, apdu_length⟩ }
      :: pgm_transport_send_skbv_loop first_sqn apdu_length rest
          (data_bytes_offset + len) (sqn + 1)

/-- TPDUs emitted by one `pgm_transport_send_skbv` call with `is_one_apdu`:
`apdu_length` and `first_sqn` are freshly computed (source.c lines
1938-1947), but — unlike `pgm_transport_send` line 1446 — no statement
resets `STATE(data_bytes_offset)`, so the loop starts from whatever value
the previous send call left behind (`stale_data_bytes_offset`). -/
def pgm_transport_send_skbv_fragments (stale_data_bytes_offset : Nat) (lens : List Nat)
    (first_sqn : Nat) : List OdataPacket :=
  pgm_transport_send_skbv_loop first_sqn lens.sum lens stale_data_bytes_offset first_sqn

/-- Final value of `STATE(data_bytes_offset)` after the `send_skbv` loop,
checked by the debug assertion `g_assert(STATE(data_bytes_offset) ==
STATE(apdu_length))` (source.c line 2056). -/
def pgm_transport_send_skbv_final_offset (stale_data_bytes_offset : Nat)
    (lens : List Nat) : Nat :=
  stale_data_bytes_offset + lens.sum

/-- Result of one `pgm_sendto` call: the byte count it returned, or -1
with `errno`, distinguishing EAGAIN from other errors. -/
inductive SendtoOutcome where
  | ok (bytes : Nat)
  | error (is_eagain : Bool)
deriving DecidableEq

/-- Byte accounting of a send call: the TSDU lengths admitted into the
transmit window by `pgm_txw_add`, the accumulated `data_bytes_sent`, and
the call's return value. -/
structure SkbvAccount where
  admitted_tsdu : List Nat
  data_bytes_sent : Nat
  retval : Int
deriving DecidableEq

/-- Accounting loop of `pgm_transport_send_skbv` (source.c lines
1949-2070): every skb is added to the window (line 2009) before
`pgm_sendto`; EAGAIN jumps to `blocked` and returns -1 (lines 2022-2026,
2082-2083); a full-length send adds the TSDU to `data_bytes_sent` (lines
2031-2036) while any other outcome is silently skipped; the final return
value is `data_bytes_sent` (line 2070). -/
def pgm_transport_send_skbv_acct (pkt_offset : Nat) (outcome : Nat → SendtoOutcome) :
    List Nat → Nat → List Nat → Nat → SkbvAccount
  | [], _, admitted, dbs => ⟨admitted, dbs, Int.ofNat dbs⟩
  | len :: rest, i, admitted, dbs =>
    match outcome i with
    | .error true => ⟨admitted ++ [len], dbs, -1⟩
    | .error false =>
      pgm_transport_send_skbv_acct pkt_offset outcome rest (i + 1) (admitted ++ [len]) dbs
    | .ok b =>
      pgm_transport_send_skbv_acct pkt_offset outcome rest (i + 1) (admitted ++ [len])
        (if b = pkt_offset + len then dbs + len else dbs)

/-- Entry point for the `send_skbv` accounting with the loop state
initialized as in the source (`bytes_sent`/`data_bytes_sent` zero). -/
def pgm_transport_send_skbv_return (pkt_offset : Nat) (lens : List Nat)
    (outcome : Nat → SendtoOutcome) : SkbvAccount :=
  pgm_transport_send_skbv_acct pkt_offset outcome lens 0 [] 0

/-- Accounting loop of the fragmenting `pgm_transport_send` (source.c
lines 1451-1556): each fragment is added to the window before
`pgm_sendto`; EAGAIN goes to `blocked` returning -1 (lines 1514-1518,
1558-1569); a full-length send is counted into `data_bytes_sent` (lines
1523-1528); and on loop completion the call returns `apdu_length` itself
(line 1556) regardless of any non-EAGAIN send failures.  `none` is
fuel exhaustion (unreachable for positive `max_tsdu_fragment` and
sufficient fuel). -/
def pgm_transport_send_acct (max_tsdu_fragment apdu_length pkt_offset : Nat)
    (outcome : Nat → SendtoOutcome) :
    Nat → Nat → List Nat → Nat → Nat → Option SkbvAccount
  | _, _, _, _, 0 => none
  | data_bytes_offset, i, admitted, dbs, fuel + 1 =>
    let tsdu_length := min max_tsdu_fragment (apdu_length - data_bytes_offset)
    match outcome i with
    | .error true => some ⟨admitted ++ [tsdu_length], dbs, -1⟩
    | o =>
      let dbs :=
        match o with
        | .ok b => if b = pkt_offset + tsdu_length then dbs + tsdu_length else dbs
        | _ => dbs
      if data_bytes_offset + tsdu_length < apdu_length then
        pgm_transport_send_acct max_tsdu_fragment apdu_length pkt_offset outcome
          (data_bytes_offset + tsdu_length) (i + 1) (admitted ++ [tsdu_length]) dbs fuel
      else some ⟨admitted ++ [tsdu_length], dbs, Int.ofNat apdu_length⟩

/-- Entry point for the fragmenting `pgm_transport_send` accounting. -/
def pgm_transport_send_return (max_tsdu_fragment apdu_length pkt_offset : Nat)
    (outcome : Nat → SendtoOutcome) : Option SkbvAccount :=
  pgm_transport_send_acct max_tsdu_fragment apdu_length pkt_offset outcome 0 0 [] 0
    (apdu_length + 1)

/-- Result of `pgm_transport_send_one_copy`: the single ODATA built and
admitted into the window (`none` when a guard rejected the call before
building anything), and the return value. -/
structure SendOneResult where
  odata : Option OdataPacket
  retval : Int
deriving DecidableEq

/-- Function `pgm_transport_send_one_copy` (source.c lines 1145-1242) on
the non-resume path (`is_apdu_eagain` false): the null and oversize guards
run only when `tsdu_length` is nonzero (lines 1155-1158); otherwise one
ODATA with `pgm_options = 0` and the given `tsdu_length` is built, added
to the window and sent; EAGAIN returns -1 leaving the packet in the
window, any other outcome returns `tsdu_length` (line 1241). -/
def pgm_transport_send_one_copy (max_tsdu : Nat) (tsdu_is_null : Bool)
    (tsdu_length sqn : Nat) (outcome : SendtoOutcome) : SendOneResult :=
  let pkt : OdataPacket :=
    { pgm_type := PGM_ODATA, pgm_options := 0, pgm_tsdu_length := tsdu_length,
      data_sqn := sqn, opt_fragment := none }
  let send : SendOneResult :=
    match outcome with
    | .error true => ⟨some pkt, -1⟩
    | _ => ⟨some pkt, Int.ofNat tsdu_length⟩
  if tsdu_length = 0 then send
  else if tsdu_is_null then ⟨none, -EINVAL⟩
  else if max_tsdu < tsdu_length then ⟨none, -EMSGSIZE⟩
  else send

/-- Which path a public send entry point takes. -/
inductive SendDispatch where
  | econnreset
  | one_copy (r : SendOneResult)
  | other_path
deriving DecidableEq

/-- Entry dispatch of `pgm_transport_send` (source.c lines 1389-1411):
closed transport fails with ECONNRESET (errno, return -1); an APDU shorter
than `max_tsdu` is passed to `pgm_transport_send_one_copy`; anything else
continues into the fragmenting path (embedded as
`pgm_transport_send_fragments`/`pgm_transport_send_return`). -/
def pgm_transport_send_dispatch (is_open : Bool) (max_tsdu : Nat) (apdu_is_null : Bool)
    (apdu_length sqn : Nat) (outcome : SendtoOutcome) : SendDispatch :=
  if !is_open then .econnreset
  else if apdu_length < max_tsdu then
    .one_copy (pgm_transport_send_one_copy max_tsdu apdu_is_null apdu_length sqn outcome)
  else .other_path

/-- Entry dispatch of `pgm_transport_sendv` (source.c lines 1591-1613):
closed transport fails with ECONNRESET; `count == 0` is passed on as
`pgm_transport_send_one_copy (transport, NULL, count, flags)`, i.e. a
null, zero-length TSDU. -/
def pgm_transport_sendv_dispatch (is_open : Bool) (max_tsdu count sqn : Nat)
    (outcome : SendtoOutcome) : SendDispatch :=
  if !is_open then .econnreset
  else if count = 0 then
    .one_copy (pgm_transport_send_one_copy max_tsdu true 0 sqn outcome)
  else .other_path

/-- Entry dispatch of `pgm_transport_send_skbv` (source.c lines 1879-1905):
closed transport fails with ECONNRESET; `count == 0` is passed on exactly
like `pgm_transport_sendv`. -/
def pgm_transport_send_skbv_dispatch (is_open : Bool) (max_tsdu count sqn : Nat)
    (outcome : SendtoOutcome) : SendDispatch :=
  if !is_open then .econnreset
  else if count = 0 then
    .one_copy (pgm_transport_send_one_copy max_tsdu true 0 sqn outcome)
  else .other_path

/-! ## Theorems for claims C1, C2, C9 -/

/-- C1: the fragmenting paths of `pgm_transport_send` and
`pgm_transport_sendv` satisfy the claim — shown here on a 4000-byte APDU
with 1400-byte fragments: three TPDUs, identical `first_sqn` and
`apdu_length`, frag offsets 0, 1400, 2800 (the running sums of the
preceding TSDU lengths, the last summing with its TSDU to 4000).  But
`pgm_transport_send_skbv` never resets `STATE(data_bytes_offset)` before
its loop, so after a previous fragmented send left the offset at 4000, a
two-skb APDU of 50+50 bytes is stamped with frag offsets 4000 and 4050
instead of 0 and 50 — and the final offset violates the source's own
debug assertion `data_bytes_offset == apdu_length` (line 2056). -/
theorem fragment_offsets_code_bug :
    (pgm_transport_send_fragments 1400 4000 0
      = [⟨PGM_ODATA, PGM_OPT_PRESENT, 1400, 0, some ⟨0, 0, 4000⟩⟩,
         ⟨PGM_ODATA, PGM_OPT_PRESENT, 1400, 1, some ⟨0, 1400, 4000⟩⟩,
         ⟨PGM_ODATA, PGM_OPT_PRESENT, 1200, 2, some ⟨0, 2800, 4000⟩⟩])
    ∧ (pgm_transport_send_skbv_fragments 4000 [50, 50] 3
      = [⟨PGM_ODATA, PGM_OPT_PRESENT, 50, 3, some ⟨3, 4000, 100⟩⟩,
         ⟨PGM_ODATA, PGM_OPT_PRESENT, 50, 4, some ⟨3, 4050, 100⟩⟩])
    ∧ pgm_transport_send_skbv_final_offset 4000 [50, 50] ≠ ([50, 50] : List Nat).sum := by
  refine ⟨?_, ?_, ?_⟩ <;> decide

/-- C2: the claim says every public send call that does not block with
EAGAIN returns the total payload bytes admitted into the window, even
when `pgm_sendto` fails after the insert.  The fragmenting
`pgm_transport_send` does behave that way (returning `apdu_length`, here
20, with both 10-byte fragments admitted despite the second sendto
failing), but `pgm_transport_send_skbv` returns `data_bytes_sent`, which
skips any skb whose sendto failed: with two 10-byte skbs and the second
sendto failing with a non-EAGAIN error, both TSDUs are admitted yet the
call returns 10, not 20. -/
theorem send_skbv_return_undercounts :
    (pgm_transport_send_skbv_return 34 [10, 10]
        (fun i => if i = 0 then .ok 44 else .error false)
      = ⟨[10, 10], 10, 10⟩)
    ∧ (pgm_transport_send_skbv_return 34 [10, 10]
        (fun i => if i = 0 then .ok 44 else .error false)).retval
      ≠ Int.ofNat ([10, 10] : List Nat).sum
    ∧ (pgm_transport_send_return 10 20 34 (fun i => if i = 0 then .ok 44 else .error false)
      = some ⟨[10, 10], 10, 20⟩) := by
  refine ⟨?_, ?_, ?_⟩ <;> decide

/-- C9: on an open transport, outside a resumed EAGAIN state and with
`pgm_sendto` not returning EAGAIN, a zero-length `pgm_transport_send`
(null buffer allowed: the null guard runs only for nonzero lengths) takes
the single-packet copy path, emits exactly one ODATA with
`pgm_tsdu_length = 0`, and returns 0; `pgm_transport_sendv` and
`pgm_transport_send_skbv` with `count = 0` reduce to the same
zero-length `pgm_transport_send_one_copy` call. -/
theorem zero_length_send_ok (is_open : Bool) (max_tsdu : Nat) (apdu_is_null : Bool)
    (sqn : Nat) (outcome : SendtoOutcome)
    (hopen : is_open = true) (hmax : 0 < max_tsdu) (hout : outcome ≠ .error true) :
    pgm_transport_send_dispatch is_open max_tsdu apdu_is_null 0 sqn outcome
      = .one_copy ⟨some ⟨PGM_ODATA, 0, 0, sqn, none⟩, 0⟩
    ∧ pgm_transport_sendv_dispatch is_open max_tsdu 0 sqn outcome
      = .one_copy ⟨some ⟨PGM_ODATA, 0, 0, sqn, none⟩, 0⟩
    ∧ pgm_transport_send_skbv_dispatch is_open max_tsdu 0 sqn outcome
      = .one_copy ⟨some ⟨PGM_ODATA, 0, 0, sqn, none⟩, 0⟩ := by
  subst hopen
  unfold pgm_transport_send_dispatch pgm_transport_sendv_dispatch
    pgm_transport_send_skbv_dispatch pgm_transport_send_one_copy
  cases outcome with
  | ok b => simp [hmax]
  | error e =>
    cases e
    · simp [hmax]
    · exact absurd rfl hout

/-- Witness for `zero_length_send_ok` with `max_tsdu = 1400` and a
successful sendto. -/
theorem zero_length_send_ok_witness :
    pgm_transport_send_dispatch true 1400 true 0 5 (.ok 30)
      = .one_copy ⟨some ⟨PGM_ODATA, 0, 0, 5, none⟩, 0⟩ :=
  (zero_length_send_ok true 1400 true 5 (.ok 30) rfl (by norm_num) (by decide)).1
